import Mathlib

/-!
Shallow embedding of `pkg/flight/client.go` from the temporal-flight
repository: an Arrow Flight client with operations `NewFlightClient`,
`PutBatch`, `GetBatch`, `ListBatches`.

The transport (gRPC streams) is modelled by explicit environment records
that script the outcome of each transport call; the operations are pure
functions of those scripts. Each operation additionally reports a trace
(frames placed on the wire, phases attempted, reference-count events) so
that ordering and no-retry properties can be stated. Go byte strings
([]byte) are modelled as Lean String values, since every conversion in
the source (string(b), []byte(s)) is byte-identity.
-/

deriving instance DecidableEq for Except

namespace TemporalFlight

/-! ## Wire data model (Arrow Flight protobuf messages) -/

/-- Descriptor type tag, mirroring flight.DescriptorUNKNOWN / PATH / CMD. -/
inductive DescriptorType where
  | UNKNOWN
  | PATH
  | CMD
deriving DecidableEq, Repr

/-- flight.FlightDescriptor: a command-type frame tag. -/
structure FlightDescriptor where
  dtype : DescriptorType
  cmd : String
deriving DecidableEq, Repr

/-- flight.FlightData: one frame on a DoPut / DoGet stream. -/
structure FlightData where
  flightDescriptor : Option FlightDescriptor
  dataHeader : String
  dataBody : String
  appMetadata : String
deriving DecidableEq, Repr

/-- flight.Ticket: opaque retrieval token. -/
structure Ticket where
  ticket : String
deriving DecidableEq, Repr

/-- flight.FlightInfo as consumed by ListBatches: only the descriptor
field is read by the client; the descriptor is a nullable pointer in Go,
hence Option. -/
structure FlightInfo where
  flightDescriptor : Option FlightDescriptor
deriving DecidableEq, Repr

/-- An Arrow schema: ordered field name/type pairs. -/
structure Schema where
  fields : List (String × String)
deriving DecidableEq, Repr

/-- An Arrow record batch: schema, row count, one buffer list per column. -/
structure Record where
  schema : Schema
  numRows : Nat
  columns : List (List Nat)
deriving DecidableEq, Repr

/-- Go errors as produced by fmt.Errorf: either a plain message or a
tagged wrapper around an underlying cause (the %w verb). -/
inductive GoError where
  | base (msg : String)
  | wrapped (tag : String) (cause : GoError)
deriving DecidableEq, Repr

/-- A Go context, reduced to the only observable the client manipulates:
an optional absolute deadline (in seconds). -/
structure Context where
  deadline : Option Nat
deriving DecidableEq, Repr

/-- context.WithTimeout(parent, d) at current time `now`: the child
deadline is now + d, except that a parent deadline that is already
earlier is kept (WithDeadline semantics). -/
def withTimeout (parent : Context) (now d : Nat) : Context :=
  { deadline :=
      some (match parent.deadline with
            | none => now + d
            | some p => min p (now + d)) }

/-! ## PutBatch (client.go lines 76-122) -/

/-- A frame placed on the DoPut wire: either a raw stream.Send of a
FlightData, or an IPC message emitted by the flight.RecordWriter
(schema message, then record-batch messages). -/
inductive Frame where
  | raw (fd : FlightData)
  | schemaFrame (s : Schema)
  | dataFrame (r : Record)
deriving DecidableEq, Repr

/-- The five transport phases of a PutBatch call. -/
inductive PutPhase where
  | doPutP
  | sendDescP
  | writeP
  | closeP
  | recvP
deriving DecidableEq, Repr

/-- Scripted outcomes of the transport calls PutBatch makes, in program
order: DoPut, stream.Send of the descriptor, writer.Write, writer.Close,
stream.Recv of the acknowledgement frame. -/
structure PutEnv where
  doPutErr : Option GoError
  sendDescErr : Option GoError
  writeErr : Option GoError
  closeErr : Option GoError
  recvRes : Except GoError FlightData
deriving DecidableEq, Repr

/-- Observable outcome of a PutBatch call: the returned identifier or
error, the context handed to the transport, the frames that reached the
wire, and the phases attempted (each phase is recorded when its
transport call is made). -/
structure PutOut where
  result : Except GoError String
  ctxUsed : Context
  frames : List Frame
  phases : List PutPhase
deriving DecidableEq, Repr

/-- The descriptor PutBatch builds: flight.DescriptorCMD with Cmd "put". -/
def putDescriptor : FlightDescriptor :=
  { dtype := DescriptorType.CMD, cmd := "put" }

/-- The first frame PutBatch sends: a FlightData carrying only the
descriptor, with every payload field left empty. -/
def descriptorData : FlightData :=
  { flightDescriptor := some putDescriptor
    dataHeader := ""
    dataBody := ""
    appMetadata := "" }

/-- PutBatch, mirroring client.go lines 76-122. A failed writer.Write is
modelled as placing no frames on the wire; on that path the source still
calls writer.Close (ignoring its error), which the trace records. -/
def PutBatch (parent : Context) (now : Nat) (env : PutEnv) (batch : Record) :
    PutOut :=
  let ctx := withTimeout parent now 30
  match env.doPutErr with
  | some e =>
    { result := Except.error (GoError.wrapped "failed to start DoPut stream" e)
      ctxUsed := ctx
      frames := []
      phases := [PutPhase.doPutP] }
  | none =>
    match env.sendDescErr with
    | some e =>
      { result := Except.error (GoError.wrapped "failed to send descriptor" e)
        ctxUsed := ctx
        frames := []
        phases := [PutPhase.doPutP, PutPhase.sendDescP] }
    | none =>
      match env.writeErr with
      | some e =>
        { result :=
            Except.error (GoError.wrapped "failed to write batch to stream" e)
          ctxUsed := ctx
          frames := [Frame.raw descriptorData]
          phases := [PutPhase.doPutP, PutPhase.sendDescP, PutPhase.writeP,
                     PutPhase.closeP] }
      | none =>
        match env.closeErr with
        | some e =>
          { result := Except.error (GoError.wrapped "failed to close writer" e)
            ctxUsed := ctx
            frames := [Frame.raw descriptorData, Frame.schemaFrame batch.schema,
                       Frame.dataFrame batch]
            phases := [PutPhase.doPutP, PutPhase.sendDescP, PutPhase.writeP,
                       PutPhase.closeP] }
        | none =>
          match env.recvRes with
          | Except.error e =>
            { result :=
                Except.error (GoError.wrapped "failed to receive result" e)
              ctxUsed := ctx
              frames := [Frame.raw descriptorData,
                         Frame.schemaFrame batch.schema, Frame.dataFrame batch]
              phases := [PutPhase.doPutP, PutPhase.sendDescP, PutPhase.writeP,
                         PutPhase.closeP, PutPhase.recvP] }
          | Except.ok fd =>
            { result := Except.ok fd.appMetadata
              ctxUsed := ctx
              frames := [Frame.raw descriptorData,
                         Frame.schemaFrame batch.schema, Frame.dataFrame batch]
              phases := [PutPhase.doPutP, PutPhase.sendDescP, PutPhase.writeP,
                         PutPhase.closeP, PutPhase.recvP] }

/-! ## GetBatch (client.go lines 125-161) -/

/-- Reference-count-relevant events of a GetBatch call, in order of
occurrence: DoGet, flight.NewRecordReader, reader.Next, batch.Retain,
and the deferred reader.Release. -/
inductive GetEvent where
  | doGetCall
  | newReader
  | next
  | retain
  | releaseReader
deriving DecidableEq, Repr

/-- Scripted outcomes of the transport calls GetBatch makes: DoGet,
NewRecordReader (which reads the schema message), then the decoded
batch stream: the batches the reader yields, and the error reader.Err
reports when iteration stops before yielding a batch. -/
structure GetEnv where
  doGetErr : Option GoError
  readerErr : Option GoError
  batches : List Record
  streamErr : Option GoError
deriving DecidableEq, Repr

/-- Observable outcome of a GetBatch call. -/
structure GetOut where
  result : Except GoError Record
  ctxUsed : Context
  ticketSent : Ticket
  events : List GetEvent
deriving DecidableEq, Repr

/-- GetBatch, mirroring client.go lines 125-161. The deferred
reader.Release fires on every path after the reader was created,
after the return value is fixed. -/
def GetBatch (parent : Context) (now : Nat) (env : GetEnv) (batchID : String) :
    GetOut :=
  let ctx := withTimeout parent now 30
  let tk : Ticket := { ticket := batchID }
  match env.doGetErr with
  | some e =>
    { result := Except.error (GoError.wrapped "failed to start DoGet stream" e)
      ctxUsed := ctx
      ticketSent := tk
      events := [GetEvent.doGetCall] }
  | none =>
    match env.readerErr with
    | some e =>
      { result :=
          Except.error (GoError.wrapped "failed to create record reader" e)
        ctxUsed := ctx
        ticketSent := tk
        events := [GetEvent.doGetCall, GetEvent.newReader] }
    | none =>
      match env.batches with
      | [] =>
        match env.streamErr with
        | some e =>
          { result := Except.error (GoError.wrapped "error reading batch" e)
            ctxUsed := ctx
            ticketSent := tk
            events := [GetEvent.doGetCall, GetEvent.newReader, GetEvent.next,
                       GetEvent.releaseReader] }
        | none =>
          { result := Except.error (GoError.base "no batch received")
            ctxUsed := ctx
            ticketSent := tk
            events := [GetEvent.doGetCall, GetEvent.newReader, GetEvent.next,
                       GetEvent.releaseReader] }
      | b :: _ =>
        { result := Except.ok b
          ctxUsed := ctx
          ticketSent := tk
          events := [GetEvent.doGetCall, GetEvent.newReader, GetEvent.next,
                     GetEvent.retain, GetEvent.releaseReader] }

/-- Reference count of the first decoded batch as the events fire: a
successful reader.Next produces the record holding one claim (the
claim owned by the reader), Retain adds a claim, and the reader
teardown drops the claim the reader held on every record it produced. -/
def rcStep (rc : Int) : GetEvent → Int
  | GetEvent.next => 1
  | GetEvent.retain => rc + 1
  | GetEvent.releaseReader => rc - 1
  | _ => rc

/-- Reference count of the first decoded batch after a trace. -/
def rcAfter (events : List GetEvent) : Int :=
  events.foldl rcStep 0

/-! ## ListBatches (client.go lines 164-189) -/

/-- Scripted outcomes for ListBatches: the ListFlights open result and
the successive stream.Recv results. A well-formed script ends with an
error entry, since in Go the final Recv of a terminated stream returns
io.EOF or the transport error; entries after the first error are never
consumed. -/
structure ListEnv where
  openErr : Option GoError
  recvs : List (Except GoError FlightInfo)
deriving DecidableEq, Repr

/-- Result of the receive loop: the collected identifiers, or none when
the loop dereferences a nil FlightDescriptor (a Go nil-pointer panic),
plus the number of script entries consumed. -/
structure ListLoopOut where
  ids : Option (List String)
  consumed : Nat
deriving DecidableEq, Repr

/-- The receive loop of ListBatches: append string(info.FlightDescriptor.Cmd)
for each received record, break on the first Recv error. The field access
info.FlightDescriptor.Cmd panics when the descriptor pointer is nil. -/
def listLoop : List (Except GoError FlightInfo) → List String → ListLoopOut
  | [], acc => { ids := some acc, consumed := 0 }
  | Except.error _ :: _, acc => { ids := some acc, consumed := 1 }
  | Except.ok info :: rest, acc =>
    match info.flightDescriptor with
    | none => { ids := none, consumed := 1 }
    | some d =>
      let r := listLoop rest (acc ++ [d.cmd])
      { ids := r.ids, consumed := r.consumed + 1 }

/-- Observable outcome of a ListBatches call; result none models a
panic, result some models a normal return. -/
structure ListOut where
  result : Option (Except GoError (List String))
  ctxUsed : Context
  consumed : Nat
deriving DecidableEq, Repr

/-- ListBatches, mirroring client.go lines 164-189. -/
def ListBatches (parent : Context) (now : Nat) (env : ListEnv) : ListOut :=
  let ctx := withTimeout parent now 30
  match env.openErr with
  | some e =>
    { result :=
        some (Except.error
          (GoError.wrapped "failed to start ListFlights stream" e))
      ctxUsed := ctx
      consumed := 0 }
  | none =>
    let r := listLoop env.recvs []
    { result := r.ids.map Except.ok
      ctxUsed := ctx
      consumed := r.consumed }

/-! ## NewFlightClient (client.go lines 33-67) -/

/-- A memory allocator: the default memory.NewGoAllocator or a
caller-supplied one. -/
inductive Allocator where
  | goAllocator
  | custom (id : Nat)
deriving DecidableEq, Repr

/-- FlightClientConfig: address and allocator, each possibly absent
(empty string / nil). -/
structure FlightClientConfig where
  addr : String
  allocator : Option Allocator
deriving DecidableEq, Repr

/-- The gRPC dial options the constructor installs. -/
structure DialOpts where
  insecureCreds : Bool
  blocking : Bool
  timeoutSecs : Nat
deriving DecidableEq, Repr

/-- The constructed client value: address and allocator it will use. -/
structure FlightClient where
  addr : String
  allocator : Allocator
deriving DecidableEq, Repr

/-- Scripted outcomes of the two constructor calls: grpc.Dial and
flight.NewClientWithMiddleware. -/
structure ConnEnv where
  dialErr : Option GoError
  clientErr : Option GoError
deriving DecidableEq, Repr

/-- Observable outcome of NewFlightClient: the result, every dial
attempt with the address and options it used, and whether the raw
connection was closed on the client-construction failure path. -/
structure NewOut where
  result : Except GoError FlightClient
  dialCalls : List (String × DialOpts)
  connClosed : Bool
deriving DecidableEq, Repr

/-- The options built at client.go lines 42-46: insecure transport
credentials, blocking dial, 5 second dial bound. -/
def grpcOpts : DialOpts :=
  { insecureCreds := true, blocking := true, timeoutSecs := 5 }

/-- NewFlightClient, mirroring client.go lines 33-67. -/
def NewFlightClient (env : ConnEnv) (config : FlightClientConfig) : NewOut :=
  let addr := if config.addr = "" then "localhost:8080" else config.addr
  let alloc := config.allocator.getD Allocator.goAllocator
  match env.dialErr with
  | some e =>
    { result :=
        Except.error
          (GoError.wrapped ("failed to connect to Flight server at " ++ addr) e)
      dialCalls := [(addr, grpcOpts)]
      connClosed := false }
  | none =>
    match env.clientErr with
    | some e =>
      { result := Except.error (GoError.wrapped "failed to create Flight client" e)
        dialCalls := [(addr, grpcOpts)]
        connClosed := true }
    | none =>
      { result := Except.ok { addr := addr, allocator := alloc }
        dialCalls := [(addr, grpcOpts)]
        connClosed := false }

/-! ## Shared sample values and derived predicates -/

/-- Identifier a FlightInfo contributes: string(info.FlightDescriptor.Cmd). -/
def infoCmd (i : FlightInfo) : String :=
  (i.flightDescriptor.map FlightDescriptor.cmd).getD ""

/-- Decidable precondition: every successfully received record in the
script carries a non-nil descriptor. -/
def allDescriptorsPresent : List (Except GoError FlightInfo) → Bool
  | [] => true
  | Except.ok i :: rest =>
      i.flightDescriptor.isSome && allDescriptorsPresent rest
  | Except.error _ :: rest => allDescriptorsPresent rest

/-- A concrete schema for witnesses. -/
def sampleSchema : Schema := { fields := [("v", "int64")] }

/-- A concrete record batch for witnesses. -/
def sampleRecord : Record :=
  { schema := sampleSchema, numRows := 2, columns := [[3, 4]] }

/-- A concrete flight-info record with a descriptor, for witnesses. -/
def sampleInfo1 : FlightInfo :=
  { flightDescriptor := some { dtype := DescriptorType.CMD, cmd := "id-1" } }

/-- A second concrete flight-info record, for witnesses. -/
def sampleInfo2 : FlightInfo :=
  { flightDescriptor := some { dtype := DescriptorType.CMD, cmd := "id-2" } }

/-- A flight-info record whose descriptor pointer is nil. -/
def nilDescriptorInfo : FlightInfo := { flightDescriptor := none }

/-! ## Theorems -/

/-- Claim C1: for every successful GetBatch call, the returned batch is
the first decoded one, the Retain event fires strictly before the
reader teardown Release, and the reference count of the returned batch
is at least one after the full event trace (so the batch outlives the
decoder). -/
theorem C1_retain_before_reader_release
    (parent : Context) (now : Nat) (env : GetEnv) (batchID : String)
    (b : Record)
    (h : (GetBatch parent now env batchID).result = Except.ok b) :
    env.batches.head? = some b ∧
    (∃ i j, i < j ∧
      (GetBatch parent now env batchID).events.get? i
          = some GetEvent.retain ∧
      (GetBatch parent now env batchID).events.get? j
          = some GetEvent.releaseReader) ∧
    1 ≤ rcAfter (GetBatch parent now env batchID).events := by
  obtain ⟨dgE, rdE, bs, sE⟩ := env
  cases dgE with
  | some e => simp [GetBatch] at h
  | none =>
    cases rdE with
    | some e => simp [GetBatch] at h
    | none =>
      cases bs with
      | nil => cases sE <;> simp [GetBatch] at h
      | cons b0 rest =>
        simp only [GetBatch] at h ⊢
        cases h
        exact ⟨rfl, ⟨3, 4, by decide, rfl, rfl⟩, by decide⟩

/-- Witness for C1 at a concrete one-batch stream. -/
theorem C1_retain_before_reader_release_witness :
    [sampleRecord].head? = some sampleRecord ∧
    (∃ i j, i < j ∧
      (GetBatch { deadline := none } 0 ⟨none, none, [sampleRecord], none⟩
          "b-1").events.get? i = some GetEvent.retain ∧
      (GetBatch { deadline := none } 0 ⟨none, none, [sampleRecord], none⟩
          "b-1").events.get? j = some GetEvent.releaseReader) ∧
    1 ≤ rcAfter (GetBatch { deadline := none } 0
        ⟨none, none, [sampleRecord], none⟩ "b-1").events :=
  C1_retain_before_reader_release { deadline := none } 0
    ⟨none, none, [sampleRecord], none⟩ "b-1" sampleRecord rfl

/-- Claim C2: PutBatch performs at most one acknowledgement receive and,
when all write phases succeed, exactly one, after the writer close; the
returned identifier is exactly the frame metadata bytes; a receive
failure yields the tagged error and no identifier. -/
theorem C2_single_ack_recv_returns_metadata :
    (∀ parent now env batch,
      ((PutBatch parent now env batch).phases.count PutPhase.recvP) ≤ 1) ∧
    (∀ parent now fd batch,
      (PutBatch parent now ⟨none, none, none, none, Except.ok fd⟩ batch).result
          = Except.ok fd.appMetadata ∧
      (PutBatch parent now ⟨none, none, none, none, Except.ok fd⟩ batch).phases
          = [PutPhase.doPutP, PutPhase.sendDescP, PutPhase.writeP,
             PutPhase.closeP, PutPhase.recvP]) ∧
    (∀ parent now e batch,
      (PutBatch parent now
          ⟨none, none, none, none, Except.error e⟩ batch).result
        = Except.error (GoError.wrapped "failed to receive result" e)) := by
  refine ⟨?_, ?_, ?_⟩
  · intro parent now env batch
    obtain ⟨a, b, c, d, e⟩ := env
    cases a <;> cases b <;> cases c <;> cases d <;> cases e <;>
      simp [PutBatch, List.count_cons, List.count_nil]
  · exact fun parent now fd batch => ⟨rfl, rfl⟩
  · exact fun parent now e batch => rfl

/-- Claim C3: the frames a PutBatch call places on the wire are always a
prefix of: the raw descriptor frame, then the schema frame carrying the
uploaded batch schema, then the data frame; the descriptor frame is
tagged CMD with command bytes "put" and carries no payload. -/
theorem C3_descriptor_frame_first :
    descriptorData.flightDescriptor
        = some { dtype := DescriptorType.CMD, cmd := "put" } ∧
    descriptorData.dataHeader = "" ∧
    descriptorData.dataBody = "" ∧
    descriptorData.appMetadata = "" ∧
    ∀ parent now env batch,
      (PutBatch parent now env batch).frames = [] ∨
      (PutBatch parent now env batch).frames = [Frame.raw descriptorData] ∨
      (PutBatch parent now env batch).frames
          = [Frame.raw descriptorData, Frame.schemaFrame batch.schema,
             Frame.dataFrame batch] := by
  refine ⟨rfl, rfl, rfl, rfl, ?_⟩
  intro parent now env batch
  obtain ⟨a, b, c, d, e⟩ := env
  cases a <;> cases b <;> cases c <;> cases d <;> cases e <;> simp [PutBatch]

/-- Claim C4: the ticket GetBatch submits carries the caller identifier
verbatim; on a nonempty decoded stream the first batch is returned; at
most one reader advance ever happens; and the outcome is independent of
any batches after the first. -/
theorem C4_ticket_verbatim_first_batch_only :
    (∀ parent now env batchID,
      (GetBatch parent now env batchID).ticketSent = { ticket := batchID }) ∧
    (∀ parent now b rest sE batchID,
      (GetBatch parent now ⟨none, none, b :: rest, sE⟩ batchID).result
          = Except.ok b) ∧
    (∀ parent now env batchID,
      ((GetBatch parent now env batchID).events.count GetEvent.next) ≤ 1) ∧
    (∀ parent now b rest sE batchID,
      GetBatch parent now ⟨none, none, b :: rest, sE⟩ batchID
          = GetBatch parent now ⟨none, none, [b], sE⟩ batchID) := by
  refine ⟨?_, ?_, ?_, ?_⟩
  · intro parent now env batchID
    obtain ⟨a, b, c, d⟩ := env
    cases a <;> cases b <;> cases c <;> cases d <;> rfl
  · exact fun parent now b rest sE batchID => rfl
  · intro parent now env batchID
    obtain ⟨a, b, c, d⟩ := env
    cases a <;> cases b <;> cases c <;> cases d <;>
      simp [GetBatch, List.count_cons, List.count_nil]
  · exact fun parent now b rest sE batchID => rfl

/-- Claim C5: a stream with zero batches and no decode error yields the
generic "no batch received" error; open, reader-creation and decode
failures yield errors wrapping their cause, each distinguishable from
the empty-result error; and every GetBatch on an empty decoded stream
fails, returning no batch. -/
theorem C5_empty_result_vs_transport_error :
    (∀ parent now batchID,
      (GetBatch parent now ⟨none, none, [], none⟩ batchID).result
          = Except.error (GoError.base "no batch received")) ∧
    (∀ parent now e batchID,
      (GetBatch parent now ⟨none, none, [], some e⟩ batchID).result
          = Except.error (GoError.wrapped "error reading batch" e)) ∧
    (∀ parent now e rdE bs sE batchID,
      (GetBatch parent now ⟨some e, rdE, bs, sE⟩ batchID).result
          = Except.error (GoError.wrapped "failed to start DoGet stream" e)) ∧
    (∀ parent now e bs sE batchID,
      (GetBatch parent now ⟨none, some e, bs, sE⟩ batchID).result
          = Except.error (GoError.wrapped "failed to create record reader" e)) ∧
    (∀ e, GoError.wrapped "error reading batch" e
        ≠ GoError.base "no batch received") ∧
    (∀ e, GoError.wrapped "failed to start DoGet stream" e
        ≠ GoError.base "no batch received") ∧
    (∀ e, GoError.wrapped "failed to create record reader" e
        ≠ GoError.base "no batch received") ∧
    (∀ parent now dgE rdE sE batchID, ∃ e,
      (GetBatch parent now ⟨dgE, rdE, [], sE⟩ batchID).result
          = Except.error e) := by
  refine ⟨fun _ _ _ => rfl, fun _ _ _ _ => rfl, fun _ _ _ _ _ _ _ => rfl,
    fun _ _ _ _ _ _ => rfl, fun e => by simp, fun e => by simp,
    fun e => by simp, ?_⟩
  intro parent now dgE rdE sE batchID
  cases dgE <;> cases rdE <;> cases sE <;> exact ⟨_, rfl⟩

/-- The ListBatches receive loop on a script of successfully received
records followed by a terminating error: it collects the descriptor
command of every record, consumes nothing past the error, and returns
normally. -/
theorem listLoop_ok_append (infos : List FlightInfo) (e : GoError)
    (rest : List (Except GoError FlightInfo)) :
    ∀ acc, (∀ i ∈ infos, (FlightInfo.flightDescriptor i).isSome) →
      listLoop (infos.map Except.ok ++ Except.error e :: rest) acc
        = { ids := some (acc ++ infos.map infoCmd)
            consumed := infos.length + 1 } := by
  induction infos with
  | nil => intro acc _; simp [listLoop]
  | cons i is ih =>
    intro acc h
    obtain ⟨d, hd⟩ :=
      Option.isSome_iff_exists.mp (h i (List.mem_cons_self i is))
    have hrec := ih (acc ++ [d.cmd]) fun j hj => h j (List.mem_cons_of_mem _ hj)
    simp [listLoop, hd, hrec, infoCmd]

/-- Claim C6: once the ListFlights stream is open, ListBatches collects
one identifier per received record from its descriptor command field,
stops at the first receive failure of any kind, and returns the
identifiers collected so far with a nil error. -/
theorem C6_list_collects_until_first_failure
    (parent : Context) (now : Nat) (infos : List FlightInfo) (e : GoError)
    (rest : List (Except GoError FlightInfo))
    (h : ∀ i ∈ infos, (FlightInfo.flightDescriptor i).isSome) :
    (ListBatches parent now
        ⟨none, infos.map Except.ok ++ Except.error e :: rest⟩).result
      = some (Except.ok (infos.map infoCmd)) ∧
    (ListBatches parent now
        ⟨none, infos.map Except.ok ++ Except.error e :: rest⟩).consumed
      = infos.length + 1 := by
  have hl := listLoop_ok_append infos e rest [] h
  constructor <;> simp [ListBatches, hl]

/-- Witness for C6 at a two-record stream cut off by a transport error:
both identifiers come back with a nil error. -/
theorem C6_list_collects_until_first_failure_witness :
    (ListBatches { deadline := none } 0
        ⟨none, [sampleInfo1, sampleInfo2].map Except.ok
            ++ Except.error (GoError.base "transport reset") :: []⟩).result
      = some (Except.ok ([sampleInfo1, sampleInfo2].map infoCmd)) ∧
    (ListBatches { deadline := none } 0
        ⟨none, [sampleInfo1, sampleInfo2].map Except.ok
            ++ Except.error (GoError.base "transport reset") :: []⟩).consumed
      = [sampleInfo1, sampleInfo2].length + 1 :=
  C6_list_collects_until_first_failure { deadline := none } 0
    [sampleInfo1, sampleInfo2] (GoError.base "transport reset") []
    (by decide)

/-- Claim C7: each of the five PutBatch transport phases fails with its
own tag wrapping the underlying cause, the five tags are pairwise
distinct, and no phase is ever attempted twice within one call. -/
theorem C7_put_phase_tagged_errors_no_retry :
    (∀ parent now batch e sdE wE cE rv,
      (PutBatch parent now ⟨some e, sdE, wE, cE, rv⟩ batch).result
          = Except.error (GoError.wrapped "failed to start DoPut stream" e)) ∧
    (∀ parent now batch e wE cE rv,
      (PutBatch parent now ⟨none, some e, wE, cE, rv⟩ batch).result
          = Except.error (GoError.wrapped "failed to send descriptor" e)) ∧
    (∀ parent now batch e cE rv,
      (PutBatch parent now ⟨none, none, some e, cE, rv⟩ batch).result
          = Except.error
              (GoError.wrapped "failed to write batch to stream" e)) ∧
    (∀ parent now batch e rv,
      (PutBatch parent now ⟨none, none, none, some e, rv⟩ batch).result
          = Except.error (GoError.wrapped "failed to close writer" e)) ∧
    (∀ parent now batch e,
      (PutBatch parent now
          ⟨none, none, none, none, Except.error e⟩ batch).result
        = Except.error (GoError.wrapped "failed to receive result" e)) ∧
    ["failed to start DoPut stream", "failed to send descriptor",
     "failed to write batch to stream", "failed to close writer",
     "failed to receive result"].Nodup ∧
    (∀ parent now env batch,
      ((PutBatch parent now env batch).phases).Nodup) := by
  refine ⟨fun _ _ _ _ _ _ _ _ => rfl, fun _ _ _ _ _ _ _ => rfl,
    fun _ _ _ _ _ _ => rfl, fun _ _ _ _ _ => rfl, fun _ _ _ _ => rfl,
    by decide, ?_⟩
  intro parent now env batch
  obtain ⟨a, b, c, d, e⟩ := env
  cases a <;> cases b <;> cases c <;> cases d <;> cases e <;> simp [PutBatch]

/-- Every PutBatch path hands the transport the context derived by
withTimeout parent now 30. -/
theorem put_ctxUsed (parent : Context) (now : Nat) (env : PutEnv)
    (batch : Record) :
    (PutBatch parent now env batch).ctxUsed = withTimeout parent now 30 := by
  obtain ⟨a, b, c, d, e⟩ := env
  cases a <;> cases b <;> cases c <;> cases d <;> cases e <;> rfl

/-- Every GetBatch path hands the transport the context derived by
withTimeout parent now 30. -/
theorem get_ctxUsed (parent : Context) (now : Nat) (env : GetEnv)
    (batchID : String) :
    (GetBatch parent now env batchID).ctxUsed = withTimeout parent now 30 := by
  obtain ⟨a, b, c, d⟩ := env
  cases a <;> cases b <;> cases c <;> cases d <;> rfl

/-- Every ListBatches path hands the transport the context derived by
withTimeout parent now 30. -/
theorem list_ctxUsed (parent : Context) (now : Nat) (env : ListEnv) :
    (ListBatches parent now env).ctxUsed = withTimeout parent now 30 := by
  obtain ⟨a, b⟩ := env
  cases a <;> rfl

/-- The context produced by withTimeout always carries a deadline at
most now + d, whatever the parent deadline was. -/
theorem withTimeout_deadline_le (parent : Context) (now d : Nat) :
    ∃ x, (withTimeout parent now d).deadline = some x ∧ x ≤ now + d := by
  cases hp : parent.deadline with
  | none => exact ⟨now + d, by simp [withTimeout, hp], Nat.le_refl _⟩
  | some p =>
    exact ⟨min p (now + d), by simp [withTimeout, hp], min_le_right _ _⟩

/-- Claim C8: PutBatch, GetBatch and ListBatches each run the transport
under a deadline derived from the caller context and bounded above by
now + 30 seconds, whatever the caller supplied; a transport that
answers the acknowledgement wait with the deadline-exceeded error makes
the call return a timeout-flavored error instead of an identifier. -/
theorem C8_thirty_second_deadline_bound :
    (∀ parent now env batch, ∃ d,
      (PutBatch parent now env batch).ctxUsed.deadline = some d ∧
      d ≤ now + 30) ∧
    (∀ parent now env batchID, ∃ d,
      (GetBatch parent now env batchID).ctxUsed.deadline = some d ∧
      d ≤ now + 30) ∧
    (∀ parent now env, ∃ d,
      (ListBatches parent now env).ctxUsed.deadline = some d ∧
      d ≤ now + 30) ∧
    (∀ parent now batch,
      (PutBatch parent now
          ⟨none, none, none, none,
            Except.error (GoError.base "context deadline exceeded")⟩
          batch).result
        = Except.error (GoError.wrapped "failed to receive result"
            (GoError.base "context deadline exceeded"))) := by
  refine ⟨?_, ?_, ?_, fun _ _ _ => rfl⟩
  · intro parent now env batch
    rw [put_ctxUsed]
    exact withTimeout_deadline_le parent now 30
  · intro parent now env batchID
    rw [get_ctxUsed]
    exact withTimeout_deadline_le parent now 30
  · intro parent now env
    rw [list_ctxUsed]
    exact withTimeout_deadline_le parent now 30

/-- Claim C9: NewFlightClient substitutes localhost:8080 for an empty
address and the general-purpose Go allocator for a nil allocator, dials
exactly once with blocking options bounded by 5 seconds, and on dial
failure returns a tagged error and no client. -/
theorem C9_defaults_and_single_blocking_dial :
    (∀ env config,
      (NewFlightClient env config).dialCalls
        = [(if config.addr = "" then "localhost:8080" else config.addr,
            grpcOpts)]) ∧
    grpcOpts = { insecureCreds := true, blocking := true, timeoutSecs := 5 } ∧
    (∀ a, (NewFlightClient ⟨none, none⟩ ⟨"", some a⟩).result
        = Except.ok { addr := "localhost:8080", allocator := a }) ∧
    (∀ addr, (NewFlightClient ⟨none, none⟩ ⟨addr, none⟩).result
        = Except.ok { addr := if addr = "" then "localhost:8080" else addr
                      allocator := Allocator.goAllocator }) ∧
    (∀ config e cErr,
      (NewFlightClient ⟨some e, cErr⟩ config).result
        = Except.error (GoError.wrapped
            ("failed to connect to Flight server at "
              ++ (if config.addr = "" then "localhost:8080" else config.addr))
            e)) := by
  refine ⟨?_, rfl, fun a => rfl, fun addr => rfl, fun _ _ _ => rfl⟩
  intro env config
  obtain ⟨dE, cE⟩ := env
  cases dE <;> cases cE <;> rfl

/-- The ListBatches receive loop returns normally whenever every
successfully received record in the script carries a descriptor. -/
theorem listLoop_total_of_descriptors
    (script : List (Except GoError FlightInfo)) :
    ∀ acc, allDescriptorsPresent script = true →
      ((listLoop script acc).ids).isSome := by
  induction script with
  | nil => intro acc _; simp [listLoop]
  | cons x rest ih =>
    intro acc h
    cases x with
    | error e => simp [listLoop]
    | ok info =>
      simp [allDescriptorsPresent, Bool.and_eq_true] at h
      obtain ⟨hinfo, hrest⟩ := h
      obtain ⟨d, hd⟩ := Option.isSome_iff_exists.mp hinfo
      simp [listLoop, hd]
      exact ih _ hrest

/-- Claim C10: ListBatches dereferences each received descriptor with
no nil guard: it returns normally whenever every received record has a
descriptor, and there is a stream with a descriptorless record on which
the call panics instead of returning an error. -/
theorem C10_nil_descriptor_panics :
    (∀ parent now env,
      allDescriptorsPresent env.recvs = true →
      ((ListBatches parent now env).result).isSome) ∧
    (ListBatches { deadline := none } 0
        ⟨none, [Except.ok nilDescriptorInfo]⟩).result = none := by
  constructor
  · intro parent now env h
    obtain ⟨oE, recvs⟩ := env
    cases oE with
    | some e => simp [ListBatches]
    | none =>
      have ht := listLoop_total_of_descriptors recvs [] h
      obtain ⟨l, hl⟩ := Option.isSome_iff_exists.mp ht
      simp [ListBatches, hl]
  · rfl

/-- Witness for C10 at a concrete stream whose records all carry
descriptors: the call returns normally. -/
theorem C10_nil_descriptor_panics_witness :
    ((ListBatches { deadline := none } 0
        ⟨none, [Except.ok sampleInfo1,
                Except.error (GoError.base "EOF")]⟩).result).isSome :=
  C10_nil_descriptor_panics.1 { deadline := none } 0
    ⟨none, [Except.ok sampleInfo1, Except.error (GoError.base "EOF")]⟩
    (by decide)

end TemporalFlight
